import Mathlib

/-!
Verification development for the dcd-api backend core: the social-graph
(follow/unfollow) subsystem, the comment-threading subsystem (create,
reply, like-toggle, cascade delete), the best-effort notification
dispatcher, and the moderation gate (static sensitive-word filter).

The JavaScript routes and utilities are shallowly embedded as pure Lean
functions over explicit document-store states (lists of documents).
Document ids are modelled as `Nat`; Mongo's `findById` is `List.find?`
on the id field; `findByIdAndUpdate`/`save` are maps over the list.
-/

namespace DcdApi

/-! ## Moderation Gate (src/utils/contentFilter.js) -/

/-- JS `String.prototype.startsWith`-style check on character lists:
does `needle` occur at the head of `hay`? -/
def startsWithChars : List Char → List Char → Bool
  | _, [] => true
  | [], _ :: _ => false
  | a :: as, b :: bs => a == b && startsWithChars as bs

/-- JS `String.prototype.includes`: does `needle` occur as a contiguous
substring of `hay`? -/
def containsSub : List Char → List Char → Bool
  | [], needle => needle.isEmpty
  | hay@(_ :: t), needle => startsWithChars hay needle || containsSub t needle

/-- `text.toLowerCase()`.  JS lowercases full Unicode while `Char.toLower`
only lowercases ASCII; the banned lists are Chinese (plus digits), on which
both are the identity, so the behaviours coincide on all inputs relevant
here. -/
def toLowerStr (s : String) : List Char :=
  s.data.map Char.toLower

/-- The base banned-term list `sensitiveWords` of contentFilter.js,
transcribed verbatim. -/
def sensitiveWords : List String :=
  [ "杀死", "杀害", "谋杀", "暴力", "打死", "弄死", "干掉", "灭掉", "血腥", "残忍",
    "虐待", "折磨", "酷刑", "屠杀", "砍死", "刺死", "枪杀", "爆炸", "炸弹", "恐怖",
    "袭击", "攻击", "伤害", "毁灭", "破坏", "仇杀", "报复", "威胁", "恐吓",
    "色情", "淫秽", "黄色", "裸体", "性交", "做爱", "强奸", "猥亵", "卖淫",
    "嫖娼", "援交", "包养", "一夜情", "约炮", "开房",
    "法轮功", "六四", "天安门", "达赖", "藏独", "台独", "疆独", "港独",
    "反政府", "颠覆", "民运", "异议", "维权", "抗议", "游行", "示威",
    "赌博", "赌场", "博彩", "彩票", "老虎机", "百家乐", "21点", "德州扑克",
    "网络赌博", "地下赌场", "赌资", "赌债",
    "毒品", "大麻", "海洛因", "冰毒", "摇头丸", "可卡因", "鸦片", "吸毒",
    "贩毒", "制毒", "毒贩", "毒瘾",
    "诈骗", "骗钱", "传销", "非法集资", "庞氏骗局", "网络诈骗", "电信诈骗",
    "刷单", "洗钱", "黑钱", "假币",
    "自杀", "跳楼", "割腕", "上吊", "服毒", "轻生", "寻死", "死去",
    "仇恨", "歧视", "种族主义", "纳粹", "希特勒", "反人类" ]

/-- The stricter political list `politicalSensitiveWords` of
contentFilter.js, applied only in strict mode, transcribed verbatim. -/
def politicalSensitiveWords : List String :=
  [ "习近平", "李克强", "王岐山", "胡锦涛", "江泽民", "邓小平", "毛泽东",
    "中南海", "政治局", "人大", "政协", "国务院", "中宣部", "统战部",
    "共产党", "国民党", "民进党", "公民党", "民主党", "自由党",
    "革命", "起义", "造反", "推翻", "政变", "军事政变", "独裁", "专制",
    "民主化", "自由化", "政治改革", "体制改革", "一党专政" ]

/-- Result of `checkSensitiveContent`. -/
structure CheckResult where
  isValid : Bool
  foundWords : List String
  message : String
deriving DecidableEq, Repr

/-- Does the lowercased text contain the lowercased word?  Mirrors
`textLower.includes(word.toLowerCase())`. -/
def wordHits (textLower : List Char) (word : String) : Bool :=
  containsSub textLower (word.data.map Char.toLower)

/-- `checkSensitiveContent(text, strictMode)` of contentFilter.js.
The JS guard `!text || typeof text !== 'string'` reduces, for string
inputs, to the empty-string early return. -/
def checkSensitiveContent (text : String) (strictMode : Bool) : CheckResult :=
  if text = "" then
    { isValid := true, foundWords := [], message := "" }
  else
    let textLower := toLowerStr text
    let foundWords :=
      sensitiveWords.filter (wordHits textLower) ++
        (if strictMode then politicalSensitiveWords.filter (wordHits textLower) else [])
    let isValid := foundWords.isEmpty
    { isValid := isValid
      foundWords := foundWords
      message :=
        if isValid then "" else "内容包含不当词汇: " ++ String.intercalate ", " foundWords }

/-- Result of `validateContent`. -/
structure ValidationResult where
  isValid : Bool
  message : String
deriving DecidableEq, Repr

/-- `validateContent(content, options)` of contentFilter.js, with the
options spelled out as arguments (the routes pass minLength 1,
maxLength 1000, strictMode true and leave allowEmpty at its default
false).  JS `content.length` counts UTF-16 code units; all banned terms
and all inputs considered here are BMP characters, where it agrees with
the codepoint count used here. -/
def validateContent (content : String) (minLength maxLength : Nat)
    (allowEmpty strictMode : Bool) : ValidationResult :=
  -- JS `!content || content.trim().length === 0`: the trimmed text is
  -- empty exactly when every character is whitespace (or there are none).
  if content.data.all Char.isWhitespace then
    if allowEmpty then { isValid := true, message := "" }
    else { isValid := false, message := "内容不能为空" }
  else if content.length < minLength then
    { isValid := false, message := "内容长度不能少于指定字符数" }
  else if content.length > maxLength then
    { isValid := false, message := "内容长度不能超过指定字符数" }
  else if (checkSensitiveContent content strictMode).isValid then
    { isValid := true, message := "内容验证通过" }
  else
    { isValid := false, message := "内容包含不当词汇，请修改后重试" }

/-! ## Identity Store and Relationship Manager (src/models/User.js, src/routes/follow.js) -/

/-- A user document (src/models/User.js).  `following`/`followers` are
arrays of user ids; `followersCount`/`followingCount` are the stored
denormalized counters (schema default 0). -/
structure UserDoc where
  id : Nat
  username : String
  email : String
  password : String
  role : String
  avatar : String
  isActive : Bool
  following : List Nat
  followers : List Nat
  followersCount : Nat
  followingCount : Nat
deriving DecidableEq, Repr

/-- Mongo `findById`: the first document in the collection whose id
equals the query id (`List.find?` on the id field, written structurally). -/
def findDoc {α : Type} (idf : α → Nat) : List α → Nat → Option α
  | [], _ => none
  | a :: l, x => if idf a = x then some a else findDoc idf l x

/-- `User.findById(uid)` over the users collection. -/
def findUser (users : List UserDoc) (uid : Nat) : Option UserDoc :=
  findDoc (fun u => u.id) users uid

/-- `User.findByIdAndUpdate(uid, ...)`: apply `f` to every document whose
id is `uid` (with unique ids, the one matching document). -/
def updateUser (users : List UserDoc) (uid : Nat) (f : UserDoc → UserDoc) :
    List UserDoc :=
  users.map (fun u => if u.id = uid then f u else u)

/-- HTTP response of the follow/unfollow routes (status code, `success`
flag and `message` of the JSON body). -/
structure FollowResp where
  status : Nat
  success : Bool
  message : String
deriving DecidableEq, Repr

/-- `POST /api/follow/follow` (src/routes/follow.js).  `actorId` is the
authenticated user (`ctx.state.user.userId`); `targetId` the body's
`userId`.  Joi validation of the body shape is subsumed by the typing of
the arguments.  A missing actor document makes the JS dereference
`currentUser.following` throw, which the catch block maps to a 500. -/
def followRoute (users : List UserDoc) (actorId targetId : Nat) :
    FollowResp × List UserDoc :=
  if targetId = actorId then
    ({ status := 400, success := false, message := "不能关注自己" }, users)
  else
    match findUser users targetId with
    | none => ({ status := 400, success := false, message := "用户不存在" }, users)
    | some _ =>
      match findUser users actorId with
      | none => ({ status := 500, success := false, message := "关注失败" }, users)
      | some currentUser =>
        if targetId ∈ currentUser.following then
          ({ status := 400, success := false, message := "已经关注该用户" }, users)
        else
          ({ status := 200, success := true, message := "关注成功" },
            updateUser
              (updateUser users actorId
                (fun u => { u with following := u.following ++ [targetId] }))
              targetId
              (fun u => { u with followers := u.followers ++ [actorId] }))

/-- `POST /api/follow/unfollow` (src/routes/follow.js).  Mongo's `$pull`
removes every occurrence of the value from the array, hence `filter`. -/
def unfollowRoute (users : List UserDoc) (actorId targetId : Nat) :
    FollowResp × List UserDoc :=
  match findUser users targetId with
  | none => ({ status := 400, success := false, message := "用户不存在" }, users)
  | some _ =>
    match findUser users actorId with
    | none => ({ status := 500, success := false, message := "取消关注失败" }, users)
    | some currentUser =>
      if targetId ∈ currentUser.following then
        ({ status := 200, success := true, message := "取消关注成功" },
          updateUser
            (updateUser users actorId
              (fun u => { u with following := u.following.filter (fun x => !(x == targetId)) }))
            targetId
            (fun u => { u with followers := u.followers.filter (fun x => !(x == actorId)) }))
      else
        ({ status := 400, success := false, message := "未关注该用户" }, users)

/-- The `followingCount`/`followersCount` pair reported by
`GET /api/follow/info`: computed as the lengths of the `following` and
`followers` arrays of the requesting user's document (not the stored
denormalized counter fields). -/
def followInfoCounts (users : List UserDoc) (uid : Nat) : Option (Nat × Nat) :=
  (findUser users uid).map (fun u => (u.following.length, u.followers.length))

/-- `GET /api/auth/me` (src/routes/auth.js), restricted to its effect on
the users collection: the route recomputes `followersCount` and
`followingCount` from the array lengths and, when the stored fields
disagree with either, writes both back via `User.findByIdAndUpdate`.
Token decoding is subsumed by passing the authenticated `userId`; a
missing token, invalid token or missing user leaves the store
untouched. -/
def authMeRoute (users : List UserDoc) (userId : Nat) : List UserDoc :=
  match findUser users userId with
  | none => users
  | some user =>
    if user.followersCount ≠ user.followers.length ∨
        user.followingCount ≠ user.following.length then
      updateUser users userId
        (fun u =>
          { u with
              followersCount := user.followers.length,
              followingCount := user.following.length })
    else users

/-! ## Content Store, Comment Thread Manager and Notification Dispatcher
(src/routes of the comment module, src/models/Notification.js) -/

/-- The slice of a blog document the comment routes read: owner and
title. -/
structure BlogDoc where
  id : Nat
  user : Nat
  title : String
deriving DecidableEq, Repr

/-- A comment document.  `parentId = none` marks a top-level comment;
a reply carries the id of its top-level ancestor.  `fromUserName` /
`toUserName` are the username snapshots taken at reply creation (absent
on top-level comments). -/
structure CommentDoc where
  id : Nat
  content : String
  user : Nat
  blog : Nat
  parentId : Option Nat
  replyTo : Option Nat
  fromUserName : Option String
  toUserName : Option String
  likes : List Nat
  likeCount : Nat
deriving DecidableEq, Repr

/-- A notification document, with the fields the comment routes set
explicitly plus the schema default `isRead := false`
(src/models/Notification.js). -/
structure NotificationDoc where
  recipient : Nat
  sender : Nat
  type : String
  title : String
  content : String
  relatedBlog : Option Nat
  relatedComment : Option Nat
  priority : String
  isRead : Bool
deriving DecidableEq, Repr

/-- The document-store state the comment routes touch. -/
structure DB where
  users : List UserDoc
  blogs : List BlogDoc
  comments : List CommentDoc
  notifications : List NotificationDoc
deriving DecidableEq, Repr

/-- `Comment.findById(cid)`. -/
def findComment (cs : List CommentDoc) (cid : Nat) : Option CommentDoc :=
  findDoc (fun c => c.id) cs cid

/-- `comment.save()`: write the document back under its own id. -/
def saveComment (cs : List CommentDoc) (c' : CommentDoc) : List CommentDoc :=
  cs.map (fun c => if c.id = c'.id then c' else c)

/-- `Blog.findById(bid)`. -/
def findBlog (bs : List BlogDoc) (bid : Nat) : Option BlogDoc :=
  findDoc (fun b => b.id) bs bid

/-- The remove branch of the like route: `splice` out the first
occurrence of `userId` (the JS `findIndex`/`splice` pair, i.e.
`List.erase`) and set `likeCount` to the new array length. -/
def withLikeRemoved (c : CommentDoc) (uid : Nat) : CommentDoc :=
  { c with likes := c.likes.erase uid, likeCount := (c.likes.erase uid).length }

/-- The add branch of the like route: push `userId` and set `likeCount`
to the new array length. -/
def withLikeAdded (c : CommentDoc) (uid : Nat) : CommentDoc :=
  { c with likes := c.likes ++ [uid], likeCount := (c.likes ++ [uid]).length }

/-- The notification side effect of the like route's add branch.
`notifyOk` models whether `Notification.create` itself succeeds; a
failed user/blog lookup makes the JS dereference throw inside the same
try block.  Either failure is caught and swallowed, leaving the
notifications list unchanged. -/
def likeNotify (db : DB) (notifyOk : Bool) (comment : CommentDoc)
    (userId : Nat) : List NotificationDoc :=
  if comment.user = userId then db.notifications
  else
    match findUser db.users userId, findBlog db.blogs comment.blog with
    | some liker, some blog =>
      if notifyOk then
        db.notifications ++
          [{ recipient := comment.user, sender := userId, type := "like",
             title := "评论被点赞",
             content := liker.username ++ " 点赞了您在《" ++ blog.title ++ "》中的评论",
             relatedBlog := some comment.blog, relatedComment := some comment.id,
             priority := "normal", isRead := false }]
      else db.notifications
    | _, _ => db.notifications

/-- Result of the like route: 400 when the comment is missing, else the
`likeCount`/`isLiked` data of the 200 body. -/
inductive LikeResult where
  | notFound
  | ok (likeCount : Nat) (isLiked : Bool)
deriving DecidableEq, Repr

/-- `POST /api/comment/like`.  The JS membership test
`likes.findIndex(like => like.toString() === userId.toString())`
together with `splice(likeIndex, 1)` removes the first occurrence of
`userId`, i.e. `List.erase`; the add branch pushes `userId` and sets
`likeCount` to the new array length before saving. -/
def toggleLike (db : DB) (notifyOk : Bool) (userId commentId : Nat) :
    LikeResult × DB :=
  match findComment db.comments commentId with
  | none => (.notFound, db)
  | some comment =>
    if userId ∈ comment.likes then
      (.ok (withLikeRemoved comment userId).likeCount false,
        { db with
            comments := saveComment db.comments (withLikeRemoved comment userId) })
    else
      (.ok (withLikeAdded comment userId).likeCount true,
        { db with
            comments := saveComment db.comments (withLikeAdded comment userId),
            notifications := likeNotify db notifyOk comment userId })

/-- Result of the comment-create route. -/
inductive CreateCommentResult where
  | badRequest
  | blogNotFound
  | ok (c : CommentDoc)
deriving DecidableEq, Repr

/-- `POST /api/comment/create`.  `newId` stands for the id the store
assigns to the created document.  Validation order mirrors the route:
Joi non-empty string, then `validateContent` with minLength 1,
maxLength 1000, strictMode true.  The notification to the blog owner is
attempted only when the owner differs from the author, and any failure
inside its try block (commenter lookup throwing or `Notification.create`
failing, modelled by `notifyOk`) is swallowed. -/
def createComment (db : DB) (notifyOk : Bool) (newId userId : Nat)
    (content : String) (blogId : Nat) : CreateCommentResult × DB :=
  if content = "" then (.badRequest, db)
  else if !(validateContent content 1 1000 false true).isValid then (.badRequest, db)
  else
    match findBlog db.blogs blogId with
    | none => (.blogNotFound, db)
    | some blog =>
      let c : CommentDoc :=
        { id := newId, content := content, user := userId, blog := blogId,
          parentId := none, replyTo := none,
          fromUserName := none, toUserName := none,
          likes := [], likeCount := 0 }
      let notifs :=
        if blog.user = userId then db.notifications
        else
          match findUser db.users userId with
          | some commenter =>
            if notifyOk then
              db.notifications ++
                [{ recipient := blog.user, sender := userId, type := "comment",
                   title := "新评论通知",
                   content := commenter.username ++ " 评论了您的博客《" ++ blog.title ++ "》",
                   relatedBlog := some blogId, relatedComment := some newId,
                   priority := "normal", isRead := false }]
            else db.notifications
          | none => db.notifications
      (.ok c, { db with comments := db.comments ++ [c], notifications := notifs })

/-- Result of the reply route. -/
inductive ReplyResult where
  | badRequest
  | parentNotFound
  | ok
deriving DecidableEq, Repr

/-- `POST /api/comment/reply`.  The created reply is re-parented to the
top-level ancestor via `parentComment.parentId || parentComment._id`,
and `replyTo` defaults to the parent comment's author.  The route also
requires a `blogId` in the body but stores `parentComment.blog` on the
document; `blogId` is therefore unused here beyond its presence.  The
notification content interpolates `currentUser.name`, a field absent
from the User schema, which JS renders as the string "undefined"; a null
`currentUser` or missing blog throws inside the try block and is
swallowed, as is a `Notification.create` failure (`notifyOk`). -/
def createReply (db : DB) (notifyOk : Bool) (newId userId : Nat)
    (content : String) (commentId : Nat) (replyTo : Option Nat)
    (blogId : Nat) : ReplyResult × DB :=
  if content = "" then (.badRequest, db)
  else if !(validateContent content 1 1000 false true).isValid then (.badRequest, db)
  else
    match findComment db.comments commentId with
    | none => (.parentNotFound, db)
    | some parentComment =>
      let currentUser := findUser db.users userId
      let replyToUser := findUser db.users (replyTo.getD parentComment.user)
      let r : CommentDoc :=
        { id := newId, content := content, user := userId,
          blog := parentComment.blog,
          parentId := some (parentComment.parentId.getD parentComment.id),
          replyTo := some (replyTo.getD parentComment.user),
          fromUserName := currentUser.map (fun u => u.username),
          toUserName := replyToUser.map (fun u => u.username),
          likes := [], likeCount := 0 }
      let replyToUserId := replyTo.getD parentComment.user
      let notifs :=
        if replyToUserId = userId then db.notifications
        else
          match currentUser, findBlog db.blogs parentComment.blog with
          | some _, some blog =>
            if notifyOk then
              db.notifications ++
                [{ recipient := replyToUserId, sender := userId, type := "reply",
                   title := "新回复通知",
                   content := "undefined 回复了您在《" ++ blog.title ++ "》中的评论",
                   relatedBlog := some parentComment.blog, relatedComment := some newId,
                   priority := "normal", isRead := false }]
            else db.notifications
          | _, _ => db.notifications
      (.ok, { db with comments := db.comments ++ [r], notifications := notifs })

/-- The predicate of the delete route's `deleteMany`: the comment itself
or any comment whose `parentId` equals its id. -/
def deleteHits (cid : Nat) (c : CommentDoc) : Bool :=
  c.id == cid || c.parentId == some cid

/-- `DELETE /api/comment/delete/:id`:
`Comment.deleteMany({$or: [{_id: id}, {parentId: id}]})`. -/
def deleteCommentRecords (cs : List CommentDoc) (cid : Nat) : List CommentDoc :=
  cs.filter (fun c => !(deleteHits cid c))

/-- Frame relation for C10: between a pre-state user document `u` and
its post-state counterpart `u'`, every field is unchanged except that
the actor's `following` and the target's `followers` arrays may differ.
In particular the stored `followersCount`/`followingCount` fields are
unchanged for every document. -/
def framePreserved (actorId targetId : Nat) (u u' : UserDoc) : Prop :=
  u'.id = u.id ∧ u'.username = u.username ∧ u'.email = u.email ∧
  u'.password = u.password ∧ u'.role = u.role ∧ u'.avatar = u.avatar ∧
  u'.isActive = u.isActive ∧
  u'.followersCount = u.followersCount ∧ u'.followingCount = u.followingCount ∧
  (u.id ≠ actorId → u'.following = u.following) ∧
  (u.id ≠ targetId → u'.followers = u.followers)

/-- Concrete user document used by witnesses. -/
def mkUser (uid : Nat) (fing fers : List Nat) : UserDoc :=
  { id := uid, username := "u", email := "e", password := "p", role := "user",
    avatar := "", isActive := true, following := fing, followers := fers,
    followersCount := 0, followingCount := 0 }

/-- Concrete blog document used by witnesses. -/
def mkBlog (bid uid : Nat) : BlogDoc :=
  { id := bid, user := uid, title := "t" }

/-- Concrete comment document used by witnesses. -/
def mkComment (cid uid bid : Nat) (pid : Option Nat) (likes : List Nat) :
    CommentDoc :=
  { id := cid, content := "c", user := uid, blog := bid, parentId := pid,
    replyTo := none, fromUserName := none, toUserName := none,
    likes := likes, likeCount := likes.length }

/-! ## Lemmas about the moderation gate -/

theorem startsWithChars_map (f : Char → Char) (h n : List Char)
    (hs : startsWithChars h n = true) :
    startsWithChars (h.map f) (n.map f) = true := by
  induction n generalizing h with
  | nil => cases h <;> simp [startsWithChars, List.map]
  | cons b bs ih =>
    cases h with
    | nil => simp [startsWithChars] at hs
    | cons a as =>
      simp only [startsWithChars, Bool.and_eq_true, beq_iff_eq, List.map] at hs ⊢
      exact ⟨by rw [hs.1], ih as hs.2⟩

theorem containsSub_map (f : Char → Char) (h n : List Char)
    (hc : containsSub h n = true) :
    containsSub (h.map f) (n.map f) = true := by
  induction h with
  | nil =>
    cases n with
    | nil => rfl
    | cons b bs => simp [containsSub] at hc
  | cons a as ih =>
    simp only [containsSub, List.map, Bool.or_eq_true] at hc ⊢
    cases hc with
    | inl h1 =>
      exact Or.inl (by simpa using startsWithChars_map f (a :: as) n h1)
    | inr h2 => exact Or.inr (ih h2)

/-- C9: `Check` is a pure function (a Lean function by construction)
performing case-insensitive substring matching against the base
banned-word list plus, in strict mode (the routes' default), the
stricter political list: `Check("this is clean text")` yields
`{isValid: true, foundWords: []}`, and for any text containing the
substring "杀死", strict-mode `Check` yields `isValid = false` with
"杀死" among the `foundWords`. -/
theorem check_clean_and_banned (text : String)
    (h : containsSub text.data (String.data "杀死") = true) :
    checkSensitiveContent "this is clean text" true =
      { isValid := true, foundWords := [], message := "" } ∧
    (checkSensitiveContent text true).isValid = false ∧
    "杀死" ∈ (checkSensitiveContent text true).foundWords := by
  have hne : ¬ text = "" := by
    intro he
    rw [he] at h
    exact absurd h (by decide)
  have hw : wordHits (toLowerStr text) "杀死" = true := by
    have hm := containsSub_map Char.toLower text.data (String.data "杀死") h
    simpa [wordHits, toLowerStr] using hm
  have hmem : "杀死" ∈ sensitiveWords.filter (wordHits (toLowerStr text)) := by
    rw [List.mem_filter]
    exact ⟨by decide, hw⟩
  have hfw : "杀死" ∈ sensitiveWords.filter (wordHits (toLowerStr text)) ++
      politicalSensitiveWords.filter (wordHits (toLowerStr text)) :=
    List.mem_append_left _ hmem
  refine ⟨by decide, ?_, ?_⟩
  · simp only [checkSensitiveContent, if_neg hne, if_pos rfl]
    cases hcase : sensitiveWords.filter (wordHits (toLowerStr text)) ++
        politicalSensitiveWords.filter (wordHits (toLowerStr text)) with
    | nil => rw [hcase] at hfw; cases hfw
    | cons x xs => simp [hcase]
  · simp only [checkSensitiveContent, if_neg hne, if_pos rfl]
    simpa using hfw

/-- Witness for C9 at the concrete text "请勿杀死动物". -/
theorem check_clean_and_banned_witness :
    containsSub (String.data "请勿杀死动物") (String.data "杀死") = true ∧
    ((checkSensitiveContent "请勿杀死动物" true).isValid = false ∧
      "杀死" ∈ (checkSensitiveContent "请勿杀死动物" true).foundWords) :=
  ⟨by decide, (check_clean_and_banned "请勿杀死动物" (by decide)).2⟩

/-! ## Lemmas about document lookup and update -/

theorem findDoc_map_update {α : Type} (idf : α → Nat) (l : List α) (y x : Nat)
    (g : α → α) (hg : ∀ a, idf a = y → idf (g a) = y) :
    findDoc idf (l.map (fun a => if idf a = y then g a else a)) x =
      (findDoc idf l x).map (fun a => if idf a = y then g a else a) := by
  induction l with
  | nil => rfl
  | cons a l ih =>
    rw [List.map_cons]
    by_cases hy : idf a = y
    · have hga : idf (g a) = y := hg a hy
      rw [if_pos hy]
      simp only [findDoc]
      by_cases hx : idf a = x
      · have hgx : idf (g a) = x := by rw [hga, ← hy, hx]
        rw [if_pos hgx, if_pos hx, Option.map_some', if_pos hy]
      · have hgx : ¬ idf (g a) = x := by
          rw [hga, ← hy]
          exact hx
        rw [if_neg hgx, if_neg hx]
        exact ih
    · rw [if_neg hy]
      simp only [findDoc]
      by_cases hx : idf a = x
      · rw [if_pos hx, if_pos hx, Option.map_some', if_neg hy]
      · rw [if_neg hx, if_neg hx]
        exact ih

theorem findDoc_id {α : Type} (idf : α → Nat) (l : List α) (x : Nat) (a : α)
    (h : findDoc idf l x = some a) : idf a = x := by
  induction l with
  | nil => cases h
  | cons b l ih =>
    by_cases hb : idf b = x
    · simp [findDoc, hb] at h
      rw [← h]
      exact hb
    · simp [findDoc, hb] at h
      exact ih h

theorem findUser_updateUser (users : List UserDoc) (y x : Nat)
    (f : UserDoc → UserDoc) (hf : ∀ u, u.id = y → (f u).id = y) :
    findUser (updateUser users y f) x =
      (findUser users x).map (fun u => if u.id = y then f u else u) :=
  findDoc_map_update (fun (u : UserDoc) => u.id) users y x f hf

theorem findComment_saveComment (cs : List CommentDoc) (c' : CommentDoc)
    (x : Nat) :
    findComment (saveComment cs c') x =
      (findComment cs x).map (fun c => if c.id = c'.id then c' else c) :=
  findDoc_map_update (fun (c : CommentDoc) => c.id) cs c'.id x (fun _ => c')
    (fun _ _ => rfl)

theorem findUser_id (users : List UserDoc) (uid : Nat) (u : UserDoc)
    (h : findUser users uid = some u) : u.id = uid :=
  findDoc_id (fun (v : UserDoc) => v.id) users uid u h

theorem findComment_id (cs : List CommentDoc) (cid : Nat) (c : CommentDoc)
    (h : findComment cs cid = some c) : c.id = cid :=
  findDoc_id (fun (v : CommentDoc) => v.id) cs cid c h

/-! ## Lemmas about the follow routes -/

/-- Characterization of a 200 response of the follow route: all guards
passed and both sides' lists were pushed. -/
theorem followRoute_success (users users' : List UserDoc) (A B : Nat)
    (resp : FollowResp) (hrun : followRoute users A B = (resp, users'))
    (h200 : resp.status = 200) :
    B ≠ A ∧ ∃ uA uB, findUser users A = some uA ∧ findUser users B = some uB ∧
      B ∉ uA.following ∧
      users' = updateUser
        (updateUser users A (fun u => { u with following := u.following ++ [B] }))
        B (fun u => { u with followers := u.followers ++ [A] }) := by
  unfold followRoute at hrun
  split at hrun
  next =>
    injection hrun with h1 h2
    rw [← h1] at h200
    exact absurd h200 (by decide)
  next hBA =>
    split at hrun
    next hB =>
      injection hrun with h1 h2
      rw [← h1] at h200
      exact absurd h200 (by decide)
    next uB hB =>
      split at hrun
      next hA =>
        injection hrun with h1 h2
        rw [← h1] at h200
        exact absurd h200 (by decide)
      next uA hA =>
        split at hrun
        next hmem =>
          injection hrun with h1 h2
          rw [← h1] at h200
          exact absurd h200 (by decide)
        next hmem =>
          injection hrun with h1 h2
          exact ⟨hBA, uA, uB, hA, hB, hmem, h2.symm⟩

/-- The follow route's already-following branch: a 400 response and an
unchanged state. -/
theorem followRoute_already (users : List UserDoc) (A B : Nat) (uA uB : UserDoc)
    (hne : B ≠ A) (hB : findUser users B = some uB)
    (hA : findUser users A = some uA) (hmem : B ∈ uA.following) :
    followRoute users A B =
      ({ status := 400, success := false, message := "已经关注该用户" }, users) := by
  simp only [followRoute, if_neg hne, hB, hA]
  rw [if_pos hmem]

/-- C1: whenever `Follow(A,B)` succeeds (returns 200), the resulting
state has `B` in A's `following` list and `A` in B's `followers` list —
the two lists are updated symmetrically. -/
theorem follow_symmetric_update (users users' : List UserDoc) (A B : Nat)
    (resp : FollowResp) (hrun : followRoute users A B = (resp, users'))
    (h200 : resp.status = 200) :
    ∃ uA uB, findUser users' A = some uA ∧ B ∈ uA.following ∧
      findUser users' B = some uB ∧ A ∈ uB.followers := by
  obtain ⟨hBA, uA, uB, hA, hB, hmem, hu⟩ :=
    followRoute_success users users' A B resp hrun h200
  have hidA : uA.id = A := findUser_id users A uA hA
  have hidB : uB.id = B := findUser_id users B uB hB
  have hAB : ¬ A = B := fun h => hBA h.symm
  have hfA : ∀ u : UserDoc, u.id = A →
      (({ u with following := u.following ++ [B] } : UserDoc)).id = A :=
    fun _ hu => hu
  have hfB : ∀ u : UserDoc, u.id = B →
      (({ u with followers := u.followers ++ [A] } : UserDoc)).id = B :=
    fun _ hu => hu
  subst hu
  refine ⟨{ uA with following := uA.following ++ [B] },
          { uB with followers := uB.followers ++ [A] }, ?_, ?_, ?_, ?_⟩
  · rw [findUser_updateUser _ B A _ hfB, findUser_updateUser users A A _ hfA, hA]
    simp [hidA, hAB]
  · simp
  · rw [findUser_updateUser _ B B _ hfB, findUser_updateUser users A B _ hfA, hB]
    simp [hidB, hBA]
  · simp

/-- Witness for C1: a two-user state where user 1 follows user 2. -/
theorem follow_symmetric_update_witness :
    ∃ uA uB,
      findUser (followRoute [mkUser 1 [] [], mkUser 2 [] []] 1 2).2 1 = some uA ∧
      2 ∈ uA.following ∧
      findUser (followRoute [mkUser 1 [] [], mkUser 2 [] []] 1 2).2 2 = some uB ∧
      1 ∈ uB.followers :=
  follow_symmetric_update [mkUser 1 [] [], mkUser 2 [] []]
    (followRoute [mkUser 1 [] [], mkUser 2 [] []] 1 2).2 1 2
    (followRoute [mkUser 1 [] [], mkUser 2 [] []] 1 2).1 rfl (by decide)

/-- C2: starting from a state where U1 follows nobody and U2 has no
followers, the first `Follow(U1,U2)` returns 200 and afterwards the
`followingCount` reported for U1 and the `followersCount` reported for
U2 (both computed from the array lengths by `GET /api/follow/info`; the
stored counter fields are never written, see C10) equal 1; a second
identical `Follow` returns the 400 already-following response and leaves
the state unchanged. -/
theorem first_follow_then_duplicate (users : List UserDoc) (U1 U2 : Nat)
    (u1 u2 : UserDoc) (hne : U2 ≠ U1)
    (h1 : findUser users U1 = some u1) (h2 : findUser users U2 = some u2)
    (hf1 : u1.following = []) (hf2 : u2.followers = []) :
    (followRoute users U1 U2).1.status = 200 ∧
    (followInfoCounts (followRoute users U1 U2).2 U1).map Prod.fst = some 1 ∧
    (followInfoCounts (followRoute users U1 U2).2 U2).map Prod.snd = some 1 ∧
    (followRoute (followRoute users U1 U2).2 U1 U2).1.status = 400 ∧
    (followRoute (followRoute users U1 U2).2 U1 U2).1.message = "已经关注该用户" ∧
    (followRoute (followRoute users U1 U2).2 U1 U2).2 =
      (followRoute users U1 U2).2 := by
  have hidA : u1.id = U1 := findUser_id users U1 u1 h1
  have hidB : u2.id = U2 := findUser_id users U2 u2 h2
  have h12 : ¬ U1 = U2 := fun h => hne h.symm
  have hfA : ∀ u : UserDoc, u.id = U1 →
      (({ u with following := u.following ++ [U2] } : UserDoc)).id = U1 :=
    fun _ hu => hu
  have hfB : ∀ u : UserDoc, u.id = U2 →
      (({ u with followers := u.followers ++ [U1] } : UserDoc)).id = U2 :=
    fun _ hu => hu
  have e1 : followRoute users U1 U2 =
      ({ status := 200, success := true, message := "关注成功" },
        updateUser
          (updateUser users U1 (fun u => { u with following := u.following ++ [U2] }))
          U2 (fun u => { u with followers := u.followers ++ [U1] })) := by
    simp only [followRoute, if_neg hne, h1, h2, hf1]
    simp
  have hA' : findUser (followRoute users U1 U2).2 U1 =
      some { u1 with following := u1.following ++ [U2] } := by
    rw [e1]
    rw [findUser_updateUser _ U2 U1 _ hfB, findUser_updateUser users U1 U1 _ hfA, h1]
    simp [hidA, h12]
  have hB' : findUser (followRoute users U1 U2).2 U2 =
      some { u2 with followers := u2.followers ++ [U1] } := by
    rw [e1]
    rw [findUser_updateUser _ U2 U2 _ hfB, findUser_updateUser users U1 U2 _ hfA, h2]
    simp [hidB, hne]
  have e2 : followRoute (followRoute users U1 U2).2 U1 U2 =
      ({ status := 400, success := false, message := "已经关注该用户" },
        (followRoute users U1 U2).2) :=
    followRoute_already (followRoute users U1 U2).2 U1 U2 _ _ hne hB' hA'
      (by simp)
  refine ⟨by rw [e1], ?_, ?_, by rw [e2], by rw [e2], by rw [e2]⟩
  · rw [followInfoCounts, hA']
    simp [hf1]
  · rw [followInfoCounts, hB']
    simp [hf2]

/-- Witness for C2: users 1 and 2 with no prior relation. -/
theorem first_follow_then_duplicate_witness :
    (followRoute [mkUser 1 [] [], mkUser 2 [] []] 1 2).1.status = 200 ∧
    (followInfoCounts (followRoute [mkUser 1 [] [], mkUser 2 [] []] 1 2).2 1).map
      Prod.fst = some 1 ∧
    (followInfoCounts (followRoute [mkUser 1 [] [], mkUser 2 [] []] 1 2).2 2).map
      Prod.snd = some 1 ∧
    (followRoute (followRoute [mkUser 1 [] [], mkUser 2 [] []] 1 2).2 1 2).1.status
      = 400 ∧
    (followRoute (followRoute [mkUser 1 [] [], mkUser 2 [] []] 1 2).2 1 2).1.message
      = "已经关注该用户" ∧
    (followRoute (followRoute [mkUser 1 [] [], mkUser 2 [] []] 1 2).2 1 2).2 =
      (followRoute [mkUser 1 [] [], mkUser 2 [] []] 1 2).2 :=
  first_follow_then_duplicate [mkUser 1 [] [], mkUser 2 [] []] 1 2
    (mkUser 1 [] []) (mkUser 2 [] []) (by decide) (by decide) (by decide)
    (by decide) (by decide)

/-- `$pull` of a value that occurs only as the just-pushed last element
restores the original array. -/
theorem filter_append_singleton_self (l : List Nat) (b : Nat) (h : b ∉ l) :
    (l ++ [b]).filter (fun x => !(x == b)) = l := by
  rw [List.filter_append]
  have h1 : l.filter (fun x => !(x == b)) = l := by
    rw [List.filter_eq_self]
    intro a ha
    simp
    exact fun he => h (he ▸ ha)
  have h2 : ([b] : List Nat).filter (fun x => !(x == b)) = [] := by simp
  rw [h1, h2, List.append_nil]

/-- C8: a successful `Follow(A,B)` followed by a successful
`Unfollow(A,B)` restores both user documents exactly, under the spec's
data-model invariant that `following`/`followers` are symmetric for the
pair (stated as the hypothesis `hsym`; without it, `$pull` would also
remove a pre-existing asymmetric occurrence of A in B's followers). -/
theorem follow_unfollow_roundtrip (users db1 db2 : List UserDoc) (A B : Nat)
    (uA uB : UserDoc) (r1 r2 : FollowResp)
    (hA : findUser users A = some uA) (hB : findUser users B = some uB)
    (hrun1 : followRoute users A B = (r1, db1)) (h200 : r1.status = 200)
    (hsym : A ∈ uB.followers → B ∈ uA.following)
    (hrun2 : unfollowRoute db1 A B = (r2, db2)) :
    r2.status = 200 ∧ findUser db2 A = some uA ∧ findUser db2 B = some uB := by
  obtain ⟨hBA, uA', uB', hA2, hB2, hmem, hdb1⟩ :=
    followRoute_success users db1 A B r1 hrun1 h200
  rw [hA] at hA2
  rw [hB] at hB2
  injection hA2 with hA2e
  injection hB2 with hB2e
  subst hA2e
  subst hB2e
  have hnomem : A ∉ uB.followers := fun h => hmem (hsym h)
  have hidA : uA.id = A := findUser_id users A uA hA
  have hidB : uB.id = B := findUser_id users B uB hB
  have hAB : ¬ A = B := fun h => hBA h.symm
  have hfA : ∀ u : UserDoc, u.id = A →
      (({ u with following := u.following ++ [B] } : UserDoc)).id = A :=
    fun _ hu => hu
  have hfB : ∀ u : UserDoc, u.id = B →
      (({ u with followers := u.followers ++ [A] } : UserDoc)).id = B :=
    fun _ hu => hu
  have hgA : ∀ u : UserDoc, u.id = A →
      (({ u with following := u.following.filter (fun x => !(x == B)) } : UserDoc)).id
        = A :=
    fun _ hu => hu
  have hgB : ∀ u : UserDoc, u.id = B →
      (({ u with followers := u.followers.filter (fun x => !(x == A)) } : UserDoc)).id
        = B :=
    fun _ hu => hu
  have hA' : findUser db1 A = some { uA with following := uA.following ++ [B] } := by
    rw [hdb1]
    rw [findUser_updateUser _ B A _ hfB, findUser_updateUser users A A _ hfA, hA]
    simp [hidA, hAB]
  have hB' : findUser db1 B = some { uB with followers := uB.followers ++ [A] } := by
    rw [hdb1]
    rw [findUser_updateUser _ B B _ hfB, findUser_updateUser users A B _ hfA, hB]
    simp [hidB, hBA]
  have e2 : unfollowRoute db1 A B =
      ({ status := 200, success := true, message := "取消关注成功" },
        updateUser
          (updateUser db1 A
            (fun u => { u with following := u.following.filter (fun x => !(x == B)) }))
          B (fun u => { u with followers := u.followers.filter (fun x => !(x == A)) })) := by
    simp only [unfollowRoute, hB', hA']
    rw [if_pos (by simp)]
  rw [e2] at hrun2
  injection hrun2 with hr1 hr2
  subst hr2
  refine ⟨by rw [← hr1], ?_, ?_⟩
  · rw [findUser_updateUser _ B A _ hgB, findUser_updateUser db1 A A _ hgA, hA']
    simp only [Option.map_some']
    rw [if_pos hidA]
    rw [if_neg (show ¬ ({ uA with following :=
      (uA.following ++ [B]).filter (fun x => !(x == B)) } : UserDoc).id = B from hidA ▸ hAB)]
    rw [show ((uA.following ++ [B]).filter (fun x => !(x == B))) = uA.following from
      filter_append_singleton_self _ _ hmem]
  · rw [findUser_updateUser _ B B _ hgB, findUser_updateUser db1 A B _ hgA, hB']
    simp only [Option.map_some']
    rw [if_neg (show ¬ ({ uB with followers := uB.followers ++ [A] } : UserDoc).id = A
      from hidB ▸ hBA)]
    rw [if_pos hidB]
    rw [show ((uB.followers ++ [A]).filter (fun x => !(x == A))) = uB.followers from
      filter_append_singleton_self _ _ hnomem]

/-- Witness for C8: users 1 and 2, follow then unfollow. -/
theorem follow_unfollow_roundtrip_witness :
    (unfollowRoute (followRoute [mkUser 1 [] [], mkUser 2 [] []] 1 2).2 1 2).1.status
      = 200 ∧
    findUser
      (unfollowRoute (followRoute [mkUser 1 [] [], mkUser 2 [] []] 1 2).2 1 2).2 1 =
      some (mkUser 1 [] []) ∧
    findUser
      (unfollowRoute (followRoute [mkUser 1 [] [], mkUser 2 [] []] 1 2).2 1 2).2 2 =
      some (mkUser 2 [] []) :=
  follow_unfollow_roundtrip [mkUser 1 [] [], mkUser 2 [] []]
    (followRoute [mkUser 1 [] [], mkUser 2 [] []] 1 2).2
    (unfollowRoute (followRoute [mkUser 1 [] [], mkUser 2 [] []] 1 2).2 1 2).2 1 2
    (mkUser 1 [] []) (mkUser 2 [] [])
    (followRoute [mkUser 1 [] [], mkUser 2 [] []] 1 2).1
    (unfollowRoute (followRoute [mkUser 1 [] [], mkUser 2 [] []] 1 2).2 1 2).1
    (by decide) (by decide) rfl (by decide) (by decide) rfl

/-- A two-sided list update (actor's `following`, target's `followers`)
preserves every other field of every document. -/
theorem framePreserved_update (A B : Nat) (f1 f2 : List Nat → List Nat)
    (u : UserDoc) :
    framePreserved A B u
      ((fun v => if v.id = B then { v with followers := f2 v.followers } else v)
        ((fun w => if w.id = A then { w with following := f1 w.following } else w)
          u)) := by
  by_cases h1 : u.id = A
  · by_cases h2 : u.id = B
    · have hab : A = B := by
        rw [← h1]
        exact h2
      simp [framePreserved, h1, h2, hab]
    · have hab : ¬ A = B := by
        rw [← h1]
        exact h2
      simp [framePreserved, h1, h2, hab]
  · by_cases h2 : u.id = B
    · have hab : ¬ B = A := by
        rw [← h2]
        exact h1
      simp [framePreserved, h1, h2, hab]
    · simp [framePreserved, h1, h2]

/-- C10: `Follow` and `Unfollow` modify only the actor's `following`
array and the target's `followers` array; every other field of every
user document — including the stored denormalized counters
`followersCount`/`followingCount`, which neither operation writes — is
left unchanged (stated pointwise over the whole collection via
`Forall₂`). -/
theorem follow_unfollow_frame (users : List UserDoc) (A B : Nat) :
    List.Forall₂ (framePreserved A B) users (followRoute users A B).2 ∧
    List.Forall₂ (framePreserved A B) users (unfollowRoute users A B).2 := by
  have hrefl : ∀ u : UserDoc, framePreserved A B u u := by
    intro u
    simp [framePreserved]
  have hsame : List.Forall₂ (framePreserved A B) users users :=
    List.forall₂_same.mpr (fun x _ => hrefl x)
  constructor
  · unfold followRoute
    split
    · exact hsame
    · split
      · exact hsame
      · split
        · exact hsame
        · split
          · exact hsame
          · show List.Forall₂ (framePreserved A B) users (updateUser (updateUser users A _) B _)
            rw [updateUser, updateUser, List.map_map, List.forall₂_map_right_iff]
            exact List.forall₂_same.mpr (fun x _ =>
              framePreserved_update A B (fun l => l ++ [B]) (fun l => l ++ [A]) x)
  · unfold unfollowRoute
    split
    · exact hsame
    · split
      · exact hsame
      · split
        · show List.Forall₂ (framePreserved A B) users (updateUser (updateUser users A _) B _)
          rw [updateUser, updateUser, List.map_map, List.forall₂_map_right_iff]
          exact List.forall₂_same.mpr (fun x _ =>
            framePreserved_update A B (fun l => l.filter (fun x => !(x == B)))
              (fun l => l.filter (fun x => !(x == A))) x)
        · exact hsame

/-- C7: for each notification-triggering operation (comment creation,
reply creation, like), a failure of the notification-record creation
(`notifyOk = false`, covering both a throwing `Notification.create` and
a throwing lookup inside the same try block) is caught: the operation's
response and its primary state change (the comments collection) are
identical to the success case — a notification failure is never
observable in the caller's result. -/
theorem notification_failure_invisible (db : DB) (nOk : Bool)
    (nid uid cid bid : Nat) (content : String) (rTo : Option Nat) :
    (toggleLike db nOk uid cid).1 = (toggleLike db true uid cid).1 ∧
    (toggleLike db nOk uid cid).2.comments =
      (toggleLike db true uid cid).2.comments ∧
    (createComment db nOk nid uid content bid).1 =
      (createComment db true nid uid content bid).1 ∧
    (createComment db nOk nid uid content bid).2.comments =
      (createComment db true nid uid content bid).2.comments ∧
    (createReply db nOk nid uid content cid rTo bid).1 =
      (createReply db true nid uid content cid rTo bid).1 ∧
    (createReply db nOk nid uid content cid rTo bid).2.comments =
      (createReply db true nid uid content cid rTo bid).2.comments := by
  have hlike : (toggleLike db nOk uid cid).1 = (toggleLike db true uid cid).1 ∧
      (toggleLike db nOk uid cid).2.comments =
        (toggleLike db true uid cid).2.comments := by
    cases h : findComment db.comments cid with
    | none => simp [toggleLike, h]
    | some c =>
      by_cases hmem : uid ∈ c.likes
      · simp [toggleLike, h, hmem]
      · simp [toggleLike, h, hmem]
  have hcreate : (createComment db nOk nid uid content bid).1 =
      (createComment db true nid uid content bid).1 ∧
      (createComment db nOk nid uid content bid).2.comments =
        (createComment db true nid uid content bid).2.comments := by
    by_cases h1 : content = ""
    · simp [createComment, h1]
    · by_cases h2 : (validateContent content 1 1000 false true).isValid = true
      · cases h : findBlog db.blogs bid with
        | none => simp [createComment, h1, h2, h]
        | some blog => simp [createComment, h1, h2, h]
      · simp [createComment, h1, h2, Bool.not_eq_true _ ▸ h2]
  have hreply : (createReply db nOk nid uid content cid rTo bid).1 =
      (createReply db true nid uid content cid rTo bid).1 ∧
      (createReply db nOk nid uid content cid rTo bid).2.comments =
        (createReply db true nid uid content cid rTo bid).2.comments := by
    by_cases h1 : content = ""
    · simp [createReply, h1]
    · by_cases h2 : (validateContent content 1 1000 false true).isValid = true
      · cases h : findComment db.comments cid with
        | none => simp [createReply, h1, h2, h]
        | some p => simp [createReply, h1, h2, h]
      · simp [createReply, h1, h2]
  exact ⟨hlike.1, hlike.2, hcreate.1, hcreate.2, hreply.1, hreply.2⟩

/-- C5: when a user comments on a blog owned by a different user,
exactly one notification with type "comment", recipient the blog owner
and sender the commenter is appended; commenting on one's own blog
creates no notification (regardless of whether notification creation
would succeed). -/
theorem comment_notification_cross_owner (db : DB) (nid uid bid : Nat)
    (content : String) (blog : BlogDoc) (commenter : UserDoc)
    (hne : content ≠ "")
    (hval : (validateContent content 1 1000 false true).isValid = true)
    (hb : findBlog db.blogs bid = some blog)
    (hcu : findUser db.users uid = some commenter) :
    (blog.user ≠ uid →
      (createComment db true nid uid content bid).2.notifications =
        db.notifications ++
          [{ recipient := blog.user, sender := uid, type := "comment",
             title := "新评论通知",
             content := commenter.username ++ " 评论了您的博客《" ++ blog.title ++ "》",
             relatedBlog := some bid, relatedComment := some nid,
             priority := "normal", isRead := false }]) ∧
    (blog.user = uid →
      ∀ nOk : Bool, (createComment db nOk nid uid content bid).2.notifications =
        db.notifications) := by
  constructor
  · intro hown
    simp [createComment, hne, hval, hb, hcu, hown]
  · intro hown nOk
    simp [createComment, hne, hval, hb, hown]

/-- Witness for C5: user 1 comments on blog 10 owned by user 2. -/
theorem comment_notification_cross_owner_witness :
    (createComment
        { users := [mkUser 1 [] [], mkUser 2 [] []], blogs := [mkBlog 10 2],
          comments := [], notifications := [] } true 100 1 "hello" 10).2.notifications
      = [{ recipient := 2, sender := 1, type := "comment", title := "新评论通知",
           content := "u 评论了您的博客《t》", relatedBlog := some 10,
           relatedComment := some 100, priority := "normal", isRead := false }] :=
  (comment_notification_cross_owner
    { users := [mkUser 1 [] [], mkUser 2 [] []], blogs := [mkBlog 10 2],
      comments := [], notifications := [] } 100 1 10 "hello" (mkBlog 10 2)
    (mkUser 1 [] []) (by decide) (by decide) (by decide) (by decide)).1 (by decide)

/-- C6: `ToggleLike` creates a like-type notification for the comment's
author only on the add transition and only when the liker is not the
author; the removal transition never creates a notification, and neither
does a self-like. -/
theorem like_notification_only_on_add (db : DB) (nOk : Bool) (uid cid : Nat)
    (c : CommentDoc) (hc : findComment db.comments cid = some c) :
    (uid ∈ c.likes →
      (toggleLike db nOk uid cid).2.notifications = db.notifications) ∧
    (uid ∉ c.likes → c.user = uid →
      (toggleLike db nOk uid cid).2.notifications = db.notifications) ∧
    (uid ∉ c.likes → c.user ≠ uid →
      ∀ liker blog, findUser db.users uid = some liker →
        findBlog db.blogs c.blog = some blog →
        (toggleLike db true uid cid).2.notifications =
          db.notifications ++
            [{ recipient := c.user, sender := uid, type := "like",
               title := "评论被点赞",
               content := liker.username ++ " 点赞了您在《" ++ blog.title ++ "》中的评论",
               relatedBlog := some c.blog, relatedComment := some c.id,
               priority := "normal", isRead := false }]) := by
  refine ⟨?_, ?_, ?_⟩
  · intro hmem
    simp [toggleLike, hc, hmem]
  · intro hmem hown
    simp [toggleLike, likeNotify, hc, hmem, hown]
  · intro hmem hown liker blog hl hb
    simp [toggleLike, likeNotify, hc, hmem, hown, hl, hb]

/-- Witness for C6: user 1 likes comment 5 authored by user 2 on blog
10; the add transition appends exactly the like notification. -/
theorem like_notification_only_on_add_witness :
    (toggleLike
        { users := [mkUser 1 [] [], mkUser 2 [] []], blogs := [mkBlog 10 2],
          comments := [mkComment 5 2 10 none []], notifications := [] }
        true 1 5).2.notifications =
      [{ recipient := 2, sender := 1, type := "like", title := "评论被点赞",
         content := "u 点赞了您在《t》中的评论", relatedBlog := some 10,
         relatedComment := some 5, priority := "normal", isRead := false }] :=
  (like_notification_only_on_add
    { users := [mkUser 1 [] [], mkUser 2 [] []], blogs := [mkBlog 10 2],
      comments := [mkComment 5 2 10 none []], notifications := [] }
    true 1 5 (mkComment 5 2 10 none []) (by decide)).2.2 (by decide) (by decide)
    (mkUser 1 [] []) (mkBlog 10 2) (by decide) (by decide)

/-- Branch equation of the like route: remove branch. -/
theorem toggleLike_remove_eq (db : DB) (nOk : Bool) (uid cid : Nat)
    (c : CommentDoc) (hc : findComment db.comments cid = some c)
    (hmem : uid ∈ c.likes) :
    toggleLike db nOk uid cid =
      (.ok (withLikeRemoved c uid).likeCount false,
        { db with comments := saveComment db.comments (withLikeRemoved c uid) }) := by
  simp only [toggleLike, hc]
  rw [if_pos hmem]

/-- Branch equation of the like route: add branch. -/
theorem toggleLike_add_eq (db : DB) (nOk : Bool) (uid cid : Nat)
    (c : CommentDoc) (hc : findComment db.comments cid = some c)
    (hmem : uid ∉ c.likes) :
    toggleLike db nOk uid cid =
      (.ok (withLikeAdded c uid).likeCount true,
        { db with comments := saveComment db.comments (withLikeAdded c uid),
                  notifications := likeNotify db nOk c uid }) := by
  simp only [toggleLike, hc]
  rw [if_neg hmem]

/-- C3: after any `ToggleLike` call the stored `likeCount` of the
toggled comment equals the length of its `likes` array (its cardinality:
the array is duplicate-free, which is the data model's "set of user ids"
invariant, stated as `hnd`), and toggling twice with the same user
restores the original membership (`isLiked`) and the original
`likeCount` (assuming the original comment satisfied the count
invariant, `hcnt`). -/
theorem toggleLike_invariant_roundtrip (db : DB) (nOk1 nOk2 : Bool)
    (uid cid : Nat) (c : CommentDoc)
    (hc : findComment db.comments cid = some c)
    (hnd : c.likes.Nodup)
    (hcnt : c.likeCount = c.likes.length) :
    ∃ c1 c2,
      findComment (toggleLike db nOk1 uid cid).2.comments cid = some c1 ∧
      c1.likeCount = c1.likes.length ∧
      findComment (toggleLike (toggleLike db nOk1 uid cid).2 nOk2 uid cid).2.comments
        cid = some c2 ∧
      c2.likeCount = c2.likes.length ∧
      (uid ∈ c2.likes ↔ uid ∈ c.likes) ∧
      c2.likeCount = c.likeCount := by
  by_cases hmem : uid ∈ c.likes
  · -- first toggle removes, second adds back
    have e1 : toggleLike db nOk1 uid cid =
        (.ok (withLikeRemoved c uid).likeCount false,
          { db with
              comments := saveComment db.comments (withLikeRemoved c uid) }) :=
      toggleLike_remove_eq db nOk1 uid cid c hc hmem
    have h1 : findComment (toggleLike db nOk1 uid cid).2.comments cid =
        some (withLikeRemoved c uid) := by
      rw [e1]
      show findComment (saveComment db.comments _) cid = _
      rw [findComment_saveComment, hc]
      simp [withLikeRemoved]
    have hmem1 : uid ∉ (withLikeRemoved c uid).likes := by
      simp only [withLikeRemoved]
      exact hnd.not_mem_erase
    have e2 : toggleLike (toggleLike db nOk1 uid cid).2 nOk2 uid cid =
        (.ok (withLikeAdded (withLikeRemoved c uid) uid).likeCount true,
          { (toggleLike db nOk1 uid cid).2 with
              comments := saveComment (toggleLike db nOk1 uid cid).2.comments
                (withLikeAdded (withLikeRemoved c uid) uid),
              notifications := likeNotify (toggleLike db nOk1 uid cid).2 nOk2
                (withLikeRemoved c uid) uid }) :=
      toggleLike_add_eq (toggleLike db nOk1 uid cid).2 nOk2 uid cid
        (withLikeRemoved c uid) h1 hmem1
    have h2 : findComment
        (toggleLike (toggleLike db nOk1 uid cid).2 nOk2 uid cid).2.comments cid =
        some (withLikeAdded (withLikeRemoved c uid) uid) := by
      rw [e2]
      show findComment (saveComment _ _) cid = _
      rw [findComment_saveComment, h1]
      simp [withLikeAdded, withLikeRemoved]
    refine ⟨_, _, h1, rfl, h2, rfl, ?_, ?_⟩
    · simp [withLikeAdded, withLikeRemoved, hmem]
    · show (withLikeAdded (withLikeRemoved c uid) uid).likeCount = c.likeCount
      have hpos : 0 < c.likes.length := List.length_pos_of_mem hmem
      simp only [withLikeAdded, withLikeRemoved, List.length_append,
        List.length_erase_of_mem hmem, hcnt, List.length_cons, List.length_nil]
      omega
  · -- first toggle adds, second removes it again
    have e1 : toggleLike db nOk1 uid cid =
        (.ok (withLikeAdded c uid).likeCount true,
          { db with
              comments := saveComment db.comments (withLikeAdded c uid),
              notifications := likeNotify db nOk1 c uid }) :=
      toggleLike_add_eq db nOk1 uid cid c hc hmem
    have h1 : findComment (toggleLike db nOk1 uid cid).2.comments cid =
        some (withLikeAdded c uid) := by
      rw [e1]
      show findComment (saveComment db.comments _) cid = _
      rw [findComment_saveComment, hc]
      simp [withLikeAdded]
    have hmem1 : uid ∈ (withLikeAdded c uid).likes := by
      simp [withLikeAdded]
    have herase : (withLikeAdded c uid).likes.erase uid = c.likes := by
      simp only [withLikeAdded]
      rw [List.erase_append_right _ hmem, List.erase_cons_head, List.append_nil]
    have e2 : toggleLike (toggleLike db nOk1 uid cid).2 nOk2 uid cid =
        (.ok (withLikeRemoved (withLikeAdded c uid) uid).likeCount false,
          { (toggleLike db nOk1 uid cid).2 with
              comments := saveComment (toggleLike db nOk1 uid cid).2.comments
                (withLikeRemoved (withLikeAdded c uid) uid) }) :=
      toggleLike_remove_eq (toggleLike db nOk1 uid cid).2 nOk2 uid cid
        (withLikeAdded c uid) h1 hmem1
    have h2 : findComment
        (toggleLike (toggleLike db nOk1 uid cid).2 nOk2 uid cid).2.comments cid =
        some (withLikeRemoved (withLikeAdded c uid) uid) := by
      rw [e2]
      show findComment (saveComment _ _) cid = _
      rw [findComment_saveComment, h1]
      simp [withLikeRemoved, withLikeAdded]
    refine ⟨_, _, h1, rfl, h2, rfl, ?_, ?_⟩
    · simp [withLikeRemoved, herase]
    · show (withLikeRemoved (withLikeAdded c uid) uid).likeCount = c.likeCount
      simp only [withLikeRemoved]
      rw [herase, hcnt]

/-- Witness for C3: toggling user 1's like on comment 5 twice. -/
theorem toggleLike_invariant_roundtrip_witness :
    ∃ c1 c2,
      findComment (toggleLike
          { users := [], blogs := [], comments := [mkComment 5 2 10 none []],
            notifications := [] } true 1 5).2.comments 5 = some c1 ∧
      c1.likeCount = c1.likes.length ∧
      findComment (toggleLike (toggleLike
          { users := [], blogs := [], comments := [mkComment 5 2 10 none []],
            notifications := [] } true 1 5).2 true 1 5).2.comments 5 = some c2 ∧
      c2.likeCount = c2.likes.length ∧
      ((1 : Nat) ∈ c2.likes ↔ (1 : Nat) ∈ (mkComment 5 2 10 none []).likes) ∧
      c2.likeCount = (mkComment 5 2 10 none []).likeCount :=
  toggleLike_invariant_roundtrip
    { users := [], blogs := [], comments := [mkComment 5 2 10 none []],
      notifications := [] } true true 1 5 (mkComment 5 2 10 none [])
    (by decide) (by decide) (by decide)

/-! ## Lemmas about the cascade delete -/

theorem length_filter_not_split (cs : List CommentDoc) (p : CommentDoc → Bool) :
    (cs.filter p).length + (cs.filter (fun c => !(p c))).length = cs.length := by
  induction cs with
  | nil => rfl
  | cons a l ih =>
    by_cases h : p a
    · simp only [List.filter_cons, h, if_pos, Bool.not_true, List.length_cons]
      simp [h]
      omega
    · simp only [List.filter_cons]
      simp [h]
      omega

theorem countP_or_of_disjoint (cs : List CommentDoc) (cid : Nat)
    (hdis : ∀ x ∈ cs, x.id = cid → x.parentId ≠ some cid) :
    cs.countP (deleteHits cid) =
      cs.countP (fun x => x.id == cid) +
        cs.countP (fun x => x.parentId == some cid) := by
  induction cs with
  | nil => rfl
  | cons a l ih =>
    have hdl : ∀ x ∈ l, x.id = cid → x.parentId ≠ some cid :=
      fun x hx => hdis x (List.mem_cons_of_mem a hx)
    rw [List.countP_cons, List.countP_cons, List.countP_cons, ih hdl]
    by_cases h1 : a.id = cid
    · have h2 : a.parentId ≠ some cid := hdis a (List.mem_cons_self a l) h1
      simp [deleteHits, h1, h2]
      omega
    · by_cases h2 : a.parentId = some cid
      · simp [deleteHits, h1, h2]
        omega
      · simp [deleteHits, h1, h2]

theorem countP_id_one (cs : List CommentDoc) (cid : Nat) (c : CommentDoc)
    (hnd : (cs.map (fun x => x.id)).Nodup)
    (hc : findComment cs cid = some c) :
    cs.countP (fun x => x.id == cid) = 1 := by
  induction cs with
  | nil => cases hc
  | cons a l ih =>
    rw [List.map_cons, List.nodup_cons] at hnd
    obtain ⟨hna, hnl⟩ := hnd
    by_cases h1 : a.id = cid
    · have h0 : l.countP (fun x => x.id == cid) = 0 := by
        rw [List.countP_eq_zero]
        intro x hx
        simp only [beq_iff_eq]
        intro he
        have hmm : x.id ∈ l.map (fun y => y.id) := List.mem_map_of_mem _ hx
        rw [he, ← h1] at hmm
        exact hna hmm
      rw [List.countP_cons, h0]
      simp [h1]
    · have hc' : findComment l cid = some c := by
        simpa [findComment, findDoc, h1] using hc
      rw [List.countP_cons, ih hnl hc']
      simp [h1]

theorem findComment_nodup_unique (cs : List CommentDoc) (cid : Nat)
    (c x : CommentDoc)
    (hnd : (cs.map (fun y => y.id)).Nodup)
    (hc : findComment cs cid = some c) (hx : x ∈ cs) (hxid : x.id = cid) :
    x = c := by
  induction cs with
  | nil => cases hx
  | cons a l ih =>
    rw [List.map_cons, List.nodup_cons] at hnd
    obtain ⟨hna, hnl⟩ := hnd
    by_cases h1 : a.id = cid
    · have hca : a = c := by
        simpa [findComment, findDoc, h1] using hc
      rcases List.mem_cons.mp hx with hxa | hxl
      · exact hxa.trans hca
      · have hmm : x.id ∈ l.map (fun y => y.id) := List.mem_map_of_mem _ hxl
        rw [hxid, ← h1] at hmm
        exact absurd hmm hna
    · have hc' : findComment l cid = some c := by
        simpa [findComment, findDoc, h1] using hc
      rcases List.mem_cons.mp hx with hxa | hxl
      · exact absurd (hxa ▸ hxid) h1
      · exact ih hnl hc' hxl

/-- C4: `DeleteComment` removes exactly the comment itself plus the
comments whose `parentId` equals its id.  For a top-level comment with
exactly N replies that is N+1 records; for a comment that no record
names as parent (every reply, since `CreateReply` re-parents new replies
to the top-level ancestor `parentComment.parentId || parentComment._id`,
re-proved in the last conjunct) it is exactly 1 record.  Ids are assumed
unique, as the store's `_id` is. -/
theorem deleteComment_cascade_count (cs : List CommentDoc) (cid : Nat)
    (c : CommentDoc)
    (hnd : (cs.map (fun x => x.id)).Nodup)
    (hc : findComment cs cid = some c) :
    ((cs.filter (deleteHits cid)).length + (deleteCommentRecords cs cid).length
      = cs.length) ∧
    (c.parentId = none →
      (cs.filter (deleteHits cid)).length
        = (cs.countP (fun x => x.parentId == some cid)) + 1) ∧
    ((∀ x ∈ cs, x.parentId ≠ some cid) →
      (cs.filter (deleteHits cid)).length = 1) ∧
    (∀ (db : DB) (nOk : Bool) (nid uid : Nat) (s : String)
        (pcid : Nat) (rTo : Option Nat) (bid : Nat) (p : CommentDoc),
      findComment db.comments pcid = some p →
      (createReply db nOk nid uid s pcid rTo bid).1 = ReplyResult.ok →
      ∃ r, (createReply db nOk nid uid s pcid rTo bid).2.comments =
          db.comments ++ [r] ∧
        r.parentId = some (p.parentId.getD p.id)) := by
  refine ⟨length_filter_not_split cs (deleteHits cid), ?_, ?_, ?_⟩
  · intro hnone
    have hdis : ∀ x ∈ cs, x.id = cid → x.parentId ≠ some cid := by
      intro x hx hxid
      rw [findComment_nodup_unique cs cid c x hnd hc hx hxid, hnone]
      exact fun h => Option.noConfusion h
    rw [← List.countP_eq_length_filter, countP_or_of_disjoint cs cid hdis,
      countP_id_one cs cid c hnd hc]
    omega
  · intro hnochild
    have hdis : ∀ x ∈ cs, x.id = cid → x.parentId ≠ some cid :=
      fun x hx _ => hnochild x hx
    rw [← List.countP_eq_length_filter, countP_or_of_disjoint cs cid hdis,
      countP_id_one cs cid c hnd hc]
    have h0 : cs.countP (fun x => x.parentId == some cid) = 0 := by
      rw [List.countP_eq_zero]
      intro x hx
      simp only [beq_iff_eq]
      exact hnochild x hx
    rw [h0]
  · intro db nOk nid uid s pcid rTo bid p hp hok
    by_cases h1 : s = ""
    · simp [createReply, h1] at hok
    · by_cases h2 : (validateContent s 1 1000 false true).isValid = true
      · refine ⟨{ id := nid, content := s, user := uid, blog := p.blog,
                  parentId := some (p.parentId.getD p.id),
                  replyTo := some (rTo.getD p.user),
                  fromUserName := (findUser db.users uid).map (fun u => u.username),
                  toUserName := (findUser db.users (rTo.getD p.user)).map
                    (fun u => u.username),
                  likes := [], likeCount := 0 }, ?_, rfl⟩
        simp [createReply, h1, h2, hp]
      · simp [createReply, h1, h2] at hok

/-- Witness for C4: a top-level comment (id 1) with two replies. -/
theorem deleteComment_cascade_count_witness :
    (([mkComment 1 2 10 none [], mkComment 2 3 10 (some 1) [],
       mkComment 3 4 10 (some 1) []].filter (deleteHits 1)).length
      = ([mkComment 1 2 10 none [], mkComment 2 3 10 (some 1) [],
          mkComment 3 4 10 (some 1) []].countP
            (fun x => x.parentId == some 1)) + 1) :=
  (deleteComment_cascade_count
    [mkComment 1 2 10 none [], mkComment 2 3 10 (some 1) [],
     mkComment 3 4 10 (some 1) []] 1 (mkComment 1 2 10 none [])
    (by decide) (by decide)).2.1 (by decide)

/-- Counterexample to C10's parenthetical that the stored
`followersCount`/`followingCount` fields are never written by any
operation: `GET /api/auth/me` (src/routes/auth.js) writes both stored
counters whenever they disagree with the array lengths.  Concretely,
with user 1 following user 2 and the stored counters still at their
schema default 0, the route rewrites user 1's stored `followingCount`
from 0 to 1. -/
theorem stored_counts_written_by_auth_me :
    (findUser [mkUser 1 [2] [], mkUser 2 [] [1]] 1).map
        (fun u => u.followingCount) = some 0 ∧
    (findUser (authMeRoute [mkUser 1 [2] [], mkUser 2 [] [1]] 1) 1).map
        (fun u => u.followingCount) = some 1 := by
  decide

end DcdApi
